import Mathlib

/-!
# Shallow embedding of the ms365-sharepoint token layer

This file models the token acquisition and caching core of the repository:

* `src/token_cache.py` — the SQLite-backed `TokenCache` (table `token_cache`
  with `session_token TEXT PRIMARY KEY`, operations `get`, `set`, `delete`,
  `cleanup_expired`, `get_stats`);
* `src/trustyvault_client.py` — `get_trustyvault_token` (cache-or-fetch
  resolution against the TrustyVault broker), `TrustyVaultError`, and
  `decode_jwt_upn` (identity-claim extraction from an unverified JWT payload).

The SQLite table is modelled as a `List Row`; `INSERT OR REPLACE` against the
single-column primary key `session_token` is modelled by filtering out every
row with that `session_token` and appending the fresh row.  JSON bodies and
JWT claim values are modelled by a small `Json` type with Python truthiness.
Wall-clock reads (`int(time.time())`, `strftime('%s','now')`) are modelled by
an explicit `now : Int` parameter per call; a single call uses one `now`.
-/

namespace MS365

/-- JSON values as produced by `response.json()` / `jwt.decode` (numbers are
modelled as integers; none of the modelled code distinguishes floats). -/
inductive Json where
  | null : Json
  | bool : Bool → Json
  | num : Int → Json
  | str : String → Json
  | arr : List Json → Json
  | obj : List (String × Json) → Json
deriving Repr

/-- Python truthiness of a JSON-decoded value: `None`, `False`, `0`, `""`,
`[]` and `{}` are falsy, everything else truthy. -/
def Json.truthy : Json → Bool
  | .null => false
  | .bool b => b
  | .num n => n != 0
  | .str s => s != ""
  | .arr l => !l.isEmpty
  | .obj l => !l.isEmpty

/-- Python `dict.get(k)` on a JSON object rendered as an association list
(Python dict keys are unique; we return the first binding). -/
def jlookup (kvs : List (String × Json)) (k : String) : Option Json :=
  match kvs with
  | [] => none
  | (k', v) :: rest => if k' == k then some v else jlookup rest k

/-- Python `a or b` where `a` is the result of a `dict.get` (either absent,
i.e. `None`, or a JSON value judged by truthiness). -/
def pyOr (a b : Option Json) : Option Json :=
  match a with
  | some j => if j.truthy then some j else b
  | none => b

/-- SQLite TEXT-affinity storage of a Python value coming from JSON:
strings are stored as-is, integers and booleans are converted to their
text form; `None`, lists and dicts are not storable in a `NOT NULL` TEXT
column through `sqlite3` (the driver raises), modelled as `none`. -/
def Json.sqliteText : Json → Option String
  | .str s => some s
  | .num n => some (toString n)
  | .bool b => some (if b then "1" else "0")
  | _ => none

/-- A row of the `token_cache` table
(`src/token_cache.py`, `_init_database`): `session_token` is the (single
column) PRIMARY KEY; `provider` defaults to `'microsoft_graph'`;
`created_at` and `last_used_at` default to the current time on insert. -/
structure Row where
  session_token : String
  access_token : String
  refresh_token : Option String
  microsoft_upn : String
  provider : String
  expires_at : Int
  created_at : Int
  last_used_at : Int
deriving Repr, DecidableEq

/-- The dictionary returned by `TokenCache.get` on a hit. -/
structure CachedToken where
  access_token : String
  refresh_token : Option String
  microsoft_upn : String
deriving Repr, DecidableEq

namespace TokenCache

/-- The WHERE clause of `TokenCache.get`:
`session_token = ? AND provider = ? AND expires_at > ?`. -/
def rowMatches (st prov : String) (now : Int) (r : Row) : Bool :=
  r.session_token == st && r.provider == prov && decide (now < r.expires_at)

/-- Model of `TokenCache.get` (`src/token_cache.py` lines 73-119): returns the cached
record only when unexpired (`expires_at > now`), updating `last_used_at` on a
hit; returns `none` otherwise.  Result: (query result, table afterwards). -/
def get (db : List Row) (st prov : String) (now : Int) :
    Option CachedToken × List Row :=
  match db.find? (rowMatches st prov now) with
  | some r =>
      (some ⟨r.access_token, r.refresh_token, r.microsoft_upn⟩,
       db.map fun q =>
         if q.session_token == st && q.provider == prov then
           { q with last_used_at := now }
         else q)
  | none => (none, db)

/-- Model of `TokenCache.set` (`src/token_cache.py` lines 121-155):
`expires_at = now + expires_in_seconds`, then
`INSERT OR REPLACE INTO token_cache ...`.  The only uniqueness constraint is
the PRIMARY KEY on `session_token`, so the replace removes every row with the
same `session_token` (whatever its `provider`) and inserts the new row, whose
`created_at`/`last_used_at` take their defaults (`now`). -/
def set (db : List Row) (session_token access_token : String)
    (refresh_token : Option String) (microsoft_upn : String)
    (expires_in_seconds : Int) (provider : String) (now : Int) : List Row :=
  db.filter (fun r => r.session_token != session_token) ++
    [⟨session_token, access_token, refresh_token, microsoft_upn, provider,
      now + expires_in_seconds, now, now⟩]

/-- Model of `TokenCache.delete` (`src/token_cache.py` lines 157-174):
`DELETE ... WHERE session_token = ? AND provider = ?`. -/
def delete (db : List Row) (st prov : String) : List Row :=
  db.filter fun r => !(r.session_token == st && r.provider == prov)

/-- Model of `TokenCache.cleanup_expired` (`src/token_cache.py` lines 176-197):
`DELETE FROM token_cache WHERE expires_at < ?` with `? = now`; returns the
remaining table and the number of deleted rows. -/
def cleanup_expired (db : List Row) (now : Int) : List Row × Nat :=
  (db.filter (fun r => !decide (r.expires_at < now)),
   (db.filter fun r => decide (r.expires_at < now)).length)

/-- The statistics dictionary of `TokenCache.get_stats`. -/
structure Stats where
  total_tokens : Nat
  expired_tokens : Nat
  valid_tokens : Nat
deriving Repr, DecidableEq

/-- Model of `TokenCache.get_stats` (`src/token_cache.py` lines 199-227): total row
count, rows with `expires_at <= now`, and their difference. -/
def get_stats (db : List Row) (now : Int) : Stats :=
  let total := db.length
  let expired := (db.filter fun r => decide (r.expires_at ≤ now)).length
  ⟨total, expired, total - expired⟩

end TokenCache

/-! Embedding of `src/trustyvault_client.py`. -/

/-- Outcome of the one `httpx` POST to the broker: a response (status code
plus body — `none` body means `response.json()` raises a JSON decode error),
or a transport-level `httpx.TimeoutException` / `httpx.RequestError`. -/
inductive BrokerOutcome where
  | response : Nat → Option Json → BrokerOutcome
  | timeout : BrokerOutcome
  | requestError : String → BrokerOutcome
deriving Repr

/-- Outcome of `jwt.decode(tok, options={"verify_signature": False})` on a
given token string: a decode error, or the claims payload (a JSON object). -/
inductive JwtParse where
  | decodeError : String → JwtParse
  | payload : List (String × Json) → JwtParse
deriving Repr

/-- Model of `decode_jwt_upn` (`src/trustyvault_client.py` lines 223-275): decode the
JWT payload, then take the first **truthy** value of the claims
`upn`, `preferred_username`, `email`, `unique_name` (a Python `or`-chain, so
present-but-falsy claims are skipped); raise `ValueError` (`Except.error`)
when the token does not decode or when the chain yields nothing truthy. -/
def decode_jwt_upn (jwtDecode : String → JwtParse) (access_token : String) :
    Except String Json :=
  match jwtDecode access_token with
  | .decodeError e => .error ("Invalid JWT token: " ++ e)
  | .payload claims =>
      match pyOr (jlookup claims "upn")
              (pyOr (jlookup claims "preferred_username")
                (pyOr (jlookup claims "email") (jlookup claims "unique_name"))) with
      | some j =>
          if j.truthy then .ok j
          else .error "UPN not found in JWT token claims"
      | none => .error "UPN not found in JWT token claims"

/-- Result of a `get_trustyvault_token` call: the returned access token
(a JSON value: the code returns whatever the body carried), a raised
`TrustyVaultError` (error_code, message, status_code — the first two are
whatever JSON values the error body carried), or an exception that is not a
`TrustyVaultError` escaping the function (e.g. `json.JSONDecodeError`,
`AttributeError`, `TypeError`, `sqlite3.InterfaceError`). -/
inductive ResolveResult where
  | ok : Json → ResolveResult
  | vaultErr : Json → Json → Nat → ResolveResult
  | raw : String → ResolveResult
deriving Repr

/-- Observable outcome of one `get_trustyvault_token` call: the result, the
cache table afterwards, and how many times the broker endpoint was hit. -/
structure ResolveOutcome where
  result : ResolveResult
  db : List Row
  brokerCalls : Nat
deriving Repr

/-- The `microsoft_upn` computed in the fetch path
(`src/trustyvault_client.py` lines 124-129): `decode_jwt_upn` behind a
`try/except` that substitutes `"unknown"` on any failure.  `jwt.decode`
raises on a non-string argument, which the same `except` turns into
`"unknown"` as well. -/
def fetchedUpn (jwtDecode : String → JwtParse) (accessTok : Json) : Json :=
  match accessTok with
  | .str s =>
      match decode_jwt_upn jwtDecode s with
      | .ok u => u
      | .error _ => .str "unknown"
  | _ => .str "unknown"

/-- Value of `data.get("refresh_token")` prepared for storage: absent or JSON `null`
becomes SQL NULL; strings/numbers/booleans store under TEXT affinity; lists
and dicts make the `sqlite3` driver raise (modelled as `Except.error`). -/
def refreshForStore : Option Json → Except Unit (Option String)
  | none => .ok none
  | some .null => .ok none
  | some j =>
      match j.sqliteText with
      | some s => .ok (some s)
      | none => .error ()

/-- Value of `data.get("expires_in_seconds", 3600)` used in integer arithmetic
(`expires_at = int(time.time()) + expires_in_seconds` inside `cache.set`):
numbers (and booleans, which Python treats as integers) work; any other
present value makes the addition raise `TypeError`. -/
def expiresForStore : Json → Except Unit Int
  | .num n => .ok n
  | .bool b => .ok (if b then 1 else 0)
  | _ => .error ()

/-- Value of `data.get("access_token")` as used in the success branch (Python's
`dict.get` gives `None` when the key is absent; the `if not access_token`
test then judges the value's truthiness). -/
def bodyAccessToken (kvs : List (String × Json)) : Json :=
  (jlookup kvs "access_token").getD .null

/-- The outcome of one broker POST in the cache-miss branch of
`get_trustyvault_token` (`src/trustyvault_client.py` lines 77-161): map
transport failures to `TIMEOUT`/`CONNECTION_ERROR`, parse a non-200 body's
`detail.error`/`detail.message` into a `TrustyVaultError`, reject a 200 body
without a truthy `access_token` as `INVALID_RESPONSE`, otherwise extract the
identity, `cache.set` the record and return the token.  Steps where the
Python code would raise something other than `TrustyVaultError`
(`response.json()` on a non-JSON body, `.get` on a non-dict, storage of
unsupported value types) yield `ResolveResult.raw`.  Result: (what the call
returns/raises, the cache table afterwards). -/
def fetchResponse (db : List Row) (session_token provider : String)
    (broker : BrokerOutcome) (jwtDecode : String → JwtParse) (now : Int) :
    ResolveResult × List Row :=
  match broker with
  | .timeout =>
      (.vaultErr (.str "TIMEOUT")
        (.str "TrustyVault request timed out after 10 seconds") 504, db)
  | .requestError m =>
      (.vaultErr (.str "CONNECTION_ERROR")
        (.str ("Could not connect to TrustyVault: " ++ m)) 503, db)
  | .response status body =>
      if status != 200 then
        match body with
        | none => (.raw "json.JSONDecodeError", db)
        | some (.obj kvs) =>
            match (jlookup kvs "detail").getD (.obj []) with
            | .obj dkvs =>
                (.vaultErr ((jlookup dkvs "error").getD (.str "unknown_error"))
                  ((jlookup dkvs "message").getD
                    (.str "Unknown error from TrustyVault")) status, db)
            | _ => (.raw "AttributeError: detail is not a dict", db)
        | some _ => (.raw "AttributeError: response body is not a dict", db)
      else
        match body with
        | none => (.raw "json.JSONDecodeError", db)
        | some (.obj kvs) =>
            if !(bodyAccessToken kvs).truthy then
              (.vaultErr (.str "INVALID_RESPONSE")
                (.str "TrustyVault returned no access_token") 500, db)
            else
              match (bodyAccessToken kvs).sqliteText,
                    refreshForStore (jlookup kvs "refresh_token"),
                    (fetchedUpn jwtDecode (bodyAccessToken kvs)).sqliteText,
                    expiresForStore
                      ((jlookup kvs "expires_in_seconds").getD (.num 3600)) with
              | some at_, .ok rt, some up, .ok ei =>
                  (.ok (bodyAccessToken kvs),
                   TokenCache.set db session_token at_ rt up ei provider now)
              | _, _, _, _ =>
                  (.raw "cache.set raised on an unsupported value type", db)
        | some _ => (.raw "AttributeError: response body is not a dict", db)

/-- The cache-miss branch as a `ResolveOutcome`: the POST is issued exactly
once per miss (it happens before any branching on its outcome). -/
def fetchFromVault (db : List Row) (session_token provider : String)
    (broker : BrokerOutcome) (jwtDecode : String → JwtParse) (now : Int) :
    ResolveOutcome :=
  ⟨(fetchResponse db session_token provider broker jwtDecode now).1,
   (fetchResponse db session_token provider broker jwtDecode now).2, 1⟩

/-- Model of `get_trustyvault_token` (`src/trustyvault_client.py` lines 38-161):
check the cache first — a hit whose `access_token` is truthy (non-empty) is
returned with no broker call; otherwise fall through to the fetch path. -/
def get_trustyvault_token (db : List Row) (session_token provider : String)
    (broker : BrokerOutcome) (jwtDecode : String → JwtParse) (now : Int) :
    ResolveOutcome :=
  match TokenCache.get db session_token provider now with
  | (some c, db1) =>
      if c.access_token != "" then ⟨.ok (.str c.access_token), db1, 0⟩
      else fetchFromVault db1 session_token provider broker jwtDecode now
  | (none, db1) => fetchFromVault db1 session_token provider broker jwtDecode now

/-! Helper lemmas about the store. -/

/-- No row surviving `filter (session_token != s)` can satisfy the
`get` WHERE clause for session `s`. -/
theorem find?_filter_ne_session (db : List Row) (s p : String) (now : Int) :
    (db.filter fun r => r.session_token != s).find?
      (TokenCache.rowMatches s p now) = none := by
  rw [List.find?_eq_none]
  intro r hr hm
  have h1 : (r.session_token != s) = true := (List.mem_filter.mp hr).2
  simp only [TokenCache.rowMatches, Bool.and_eq_true, beq_iff_eq,
    decide_eq_true_eq] at hm
  simp only [bne_iff_ne, ne_eq] at h1
  exact h1 hm.1.1

/-- Unfolding `TokenCache.set`: replace-by-primary-key then append. -/
theorem set_eq (db : List Row) (s a : String) (rt : Option String)
    (u : String) (t : Int) (p : String) (n : Int) :
    TokenCache.set db s a rt u t p n =
      db.filter (fun r => r.session_token != s) ++
        [⟨s, a, rt, u, p, n + t, n, n⟩] := rfl

/-- Filtering away session `s` after a `set` for session `s` gives back the
other sessions' rows: the appended row is dropped and the pre-existing rows
were already filtered. -/
theorem filter_ne_session_set (db : List Row) (s a : String)
    (rt : Option String) (u : String) (t : Int) (p : String) (n : Int) :
    (TokenCache.set db s a rt u t p n).filter
        (fun r => r.session_token != s) =
      db.filter (fun r => r.session_token != s) := by
  rw [set_eq, List.filter_append, List.filter_filter]
  simp

/-- Two `set`s for the same `session_token` collapse to the second: the
second `INSERT OR REPLACE` deletes the first call's row (the primary key is
`session_token` alone, regardless of the providers involved). -/
theorem set_set_same_session (db : List Row) (s a1 a2 : String)
    (r1 r2 : Option String) (u1 u2 : String) (t1 t2 : Int) (p1 p2 : String)
    (n1 n2 : Int) :
    TokenCache.set (TokenCache.set db s a1 r1 u1 t1 p1 n1) s a2 r2 u2 t2 p2 n2 =
      TokenCache.set db s a2 r2 u2 t2 p2 n2 := by
  conv_lhs => rw [set_eq, filter_ne_session_set]
  rfl

/-- Reading the key just written: `get` after `set` for the same
`(session_token, provider)` returns the written values iff they are still
unexpired at read time. -/
theorem get_set_same (db : List Row) (s a : String) (rt : Option String)
    (u : String) (t : Int) (p : String) (n now : Int) :
    (TokenCache.get (TokenCache.set db s a rt u t p n) s p now).1 =
      if now < n + t then some ⟨a, rt, u⟩ else none := by
  unfold TokenCache.get
  rw [set_eq, List.find?_append, find?_filter_ne_session]
  by_cases h : now < n + t
  · simp [List.find?, TokenCache.rowMatches, h]
  · simp [List.find?, TokenCache.rowMatches, h]

/-- Reading a different provider under the same `session_token` after a
`set`: the write replaced the whole row, so the other provider's record is
gone (`get` filters on provider and finds nothing). -/
theorem get_set_other_provider (db : List Row) (s a : String)
    (rt : Option String) (u : String) (t : Int) (p1 p2 : String) (n now : Int)
    (hne : p1 ≠ p2) :
    (TokenCache.get (TokenCache.set db s a rt u t p2 n) s p1 now).1 = none := by
  unfold TokenCache.get
  rw [set_eq, List.find?_append, find?_filter_ne_session]
  have hb : (p2 == p1) = false := beq_eq_false_iff_ne.mpr (Ne.symm hne)
  simp [List.find?, TokenCache.rowMatches, hb]

/-! Helper lemmas about the resolver. -/

/-- A cache miss leaves the table untouched by `get`. -/
theorem get_miss_eq (db : List Row) (s p : String) (now : Int)
    (h : (TokenCache.get db s p now).1 = none) :
    TokenCache.get db s p now = (none, db) := by
  unfold TokenCache.get at h ⊢
  cases hf : db.find? (TokenCache.rowMatches s p now)
  · rfl
  · rw [hf] at h
    simp at h

/-- On a cache hit with a non-empty token, `get_trustyvault_token` returns
the cached token and never reaches the fetch path. -/
theorem resolve_hit (db : List Row) (s p : String) (broker : BrokerOutcome)
    (jd : String → JwtParse) (now : Int) (c : CachedToken)
    (h : (TokenCache.get db s p now).1 = some c)
    (hne : c.access_token ≠ "") :
    get_trustyvault_token db s p broker jd now =
      ⟨.ok (.str c.access_token), (TokenCache.get db s p now).2, 0⟩ := by
  rcases hg : TokenCache.get db s p now with ⟨fst, snd⟩
  rw [hg] at h
  simp only at h
  subst h
  unfold get_trustyvault_token
  rw [hg]
  have hb : (c.access_token != "") = true := bne_iff_ne.mpr hne
  simp [hb]

/-- On a cache miss, `get_trustyvault_token` is the fetch path applied to
the unchanged table. -/
theorem resolve_miss (db : List Row) (s p : String) (broker : BrokerOutcome)
    (jd : String → JwtParse) (now : Int)
    (h : (TokenCache.get db s p now).1 = none) :
    get_trustyvault_token db s p broker jd now =
      fetchFromVault db s p broker jd now := by
  unfold get_trustyvault_token
  rw [get_miss_eq db s p now h]

/-- Whatever token the fetch path hands back was judged truthy by the
`if not access_token` guard; in particular it is never the empty string. -/
theorem fetchResponse_ok_truthy (db : List Row) (s p : String)
    (broker : BrokerOutcome) (jd : String → JwtParse) (now : Int) (j : Json)
    (h : (fetchResponse db s p broker jd now).1 = .ok j) :
    j.truthy = true := by
  unfold fetchResponse at h
  rcases broker with ⟨status, body⟩ | _ | m
  · repeat' split at h
    all_goals simp_all
  · simp at h
  · simp at h

/-- Evaluating the fetch path on a 200 response whose body carries a
non-empty access token and a numeric TTL: the record is stored and the
token returned. -/
theorem fetchResponse_good_body (db : List Row) (s p tok u : String) (e : Int)
    (jd : String → JwtParse) (now : Int) (htok : tok ≠ "")
    (hupn : (fetchedUpn jd (.str tok)).sqliteText = some u) :
    fetchResponse db s p (.response 200 (some (.obj [("access_token", .str tok),
        ("expires_in_seconds", .num e)]))) jd now =
      (.ok (.str tok), TokenCache.set db s tok none u e p now) := by
  have htr : (Json.str tok).truthy = true := bne_iff_ne.mpr htok
  have hb : bodyAccessToken [("access_token", Json.str tok),
      ("expires_in_seconds", Json.num e)] = .str tok := rfl
  have hrf : refreshForStore (jlookup [("access_token", Json.str tok),
      ("expires_in_seconds", Json.num e)] "refresh_token") =
      Except.ok none := rfl
  have hei : expiresForStore ((jlookup [("access_token", Json.str tok),
      ("expires_in_seconds", Json.num e)]
        "expires_in_seconds").getD (.num 3600)) = Except.ok e := rfl
  have hat : (Json.str tok).sqliteText = some tok := rfl
  simp [fetchResponse, hb, htr, hupn, hrf, hei, hat]

/-- Result of `dict.get` filtered by truthiness: the value only when present and
truthy. -/
def optTruthy (o : Option Json) : Option Json :=
  match o with
  | some v => if v.truthy then some v else none
  | none => none

/-- The spec-side reading of a precedence step: the claim's value when it is
present with a truthy value, nothing otherwise. -/
def truthyClaim (claims : List (String × Json)) (k : String) : Option Json :=
  optTruthy (jlookup claims k)

/-- Python's `a or b` on `dict.get` results is a truthiness-filtered
`Option.or`. -/
theorem pyOr_eq_optTruthy_or (a b : Option Json) :
    pyOr a b = (optTruthy a).or b := by
  cases a with
  | none => rfl
  | some v =>
      unfold pyOr optTruthy
      cases hv : v.truthy <;> simp [hv]

/-- A value delivered by `optTruthy` is truthy. -/
theorem optTruthy_some {o : Option Json} {v : Json}
    (h : optTruthy o = some v) : v.truthy = true := by
  cases o with
  | none => simp [optTruthy] at h
  | some w =>
      by_cases hw : w.truthy = true
      · have hv : w = v := by simpa [optTruthy, hw] using h
        subst hv
        exact hw
      · simp [optTruthy, hw] at h

/-! Claims. -/

/-- Claim C1 (counterexample). The claim asserts that records are keyed by the
composite `(session_handle, provider)`, so that after `put(s, …, p1)` and
`put(s, …, p2)` both records coexist and `get(s, p1)` still returns the
values written for `p1`.  On the code this is false: the table's primary key
is `session_token` alone, and `INSERT OR REPLACE` therefore replaces the
`p1` row when the `p2` row is written.  At the concrete input below,
`get(s, p1)` returns `none` after the second `put`, not the `p1` record. -/
theorem c1_counterexample :
    (TokenCache.get
        (TokenCache.set (TokenCache.set [] "s" "tokA" none "a@x" 3600 "p1" 100)
          "s" "tokB" none "b@x" 3600 "p2" 100)
        "s" "p1" 200).1 = none := by decide

/-- Claim C1 (amended). Store records are keyed by `session_handle` alone
(`provider` is a stored attribute that reads filter on): after
`put(s, …, p1)` and then `put(s, …, p2)`, the store holds exactly one record
for session `s` — the one written by the second call, under provider `p2` —
so `get(s, p2)` returns the second call's values (while unexpired) and
`get(s, p1)` returns absent when `p1 ≠ p2`. -/
theorem c1_single_primary_key (db : List Row) (s p1 p2 a1 a2 u1 u2 : String)
    (r1 r2 : Option String) (t1 t2 n1 n2 now : Int)
    (hne : p1 ≠ p2) (hfresh : now < n2 + t2) :
    ((TokenCache.set (TokenCache.set db s a1 r1 u1 t1 p1 n1)
          s a2 r2 u2 t2 p2 n2).filter
        (fun r => r.session_token == s)) =
      [⟨s, a2, r2, u2, p2, n2 + t2, n2, n2⟩] ∧
    (TokenCache.get (TokenCache.set (TokenCache.set db s a1 r1 u1 t1 p1 n1)
        s a2 r2 u2 t2 p2 n2) s p2 now).1 = some ⟨a2, r2, u2⟩ ∧
    (TokenCache.get (TokenCache.set (TokenCache.set db s a1 r1 u1 t1 p1 n1)
        s a2 r2 u2 t2 p2 n2) s p1 now).1 = none := by
  rw [set_set_same_session]
  refine ⟨?_, ?_, ?_⟩
  · rw [set_eq, List.filter_append, List.filter_filter]
    have h0 : db.filter
        (fun a => (a.session_token == s) && (a.session_token != s)) = [] :=
      List.filter_eq_nil_iff.mpr
        (by intro a _; by_cases h : a.session_token = s <;> simp [h])
    rw [h0]
    simp [List.filter]
  · rw [get_set_same]
    simp [hfresh]
  · exact get_set_other_provider db s a2 r2 u2 t2 p1 p2 n2 now hne

/-- Witness for C1 (amended) at a concrete input. -/
theorem c1_single_primary_key_witness :
    ((TokenCache.set (TokenCache.set [] "s" "tokA" none "a@x" 3600 "p1" 100)
          "s" "tokB" none "b@x" 3600 "p2" 100).filter
        (fun r => r.session_token == "s")) =
      [⟨"s", "tokB", none, "b@x", "p2", 3700, 100, 100⟩] ∧
    (TokenCache.get (TokenCache.set (TokenCache.set [] "s" "tokA" none "a@x" 3600 "p1" 100)
        "s" "tokB" none "b@x" 3600 "p2" 100) "s" "p2" 200).1 =
      some ⟨"tokB", none, "b@x"⟩ ∧
    (TokenCache.get (TokenCache.set (TokenCache.set [] "s" "tokA" none "a@x" 3600 "p1" 100)
        "s" "tokB" none "b@x" 3600 "p2" 100) "s" "p1" 200).1 = none :=
  c1_single_primary_key [] "s" "p1" "p2" "tokA" "tokB" "a@x" "b@x" none none
    3600 3600 100 100 200 (by decide) (by decide)

/-- Claim C2: no stale reads.  Whenever `get` returns a record, some stored row
matches the key and satisfies `expires_at > now`, and the returned values are
that row's; conversely, if every stored row for the key has
`expires_at ≤ now`, `get` returns absent — independently of any sweep. -/
theorem c2_no_stale_reads (db : List Row) (st prov : String) (now : Int) :
    (∀ c, (TokenCache.get db st prov now).1 = some c →
        ∃ r ∈ db, r.session_token = st ∧ r.provider = prov ∧
          now < r.expires_at ∧
          c = ⟨r.access_token, r.refresh_token, r.microsoft_upn⟩) ∧
    ((∀ r ∈ db, r.session_token = st → r.provider = prov →
        r.expires_at ≤ now) →
      (TokenCache.get db st prov now).1 = none) := by
  constructor
  · intro c hc
    unfold TokenCache.get at hc
    cases hfind : db.find? (TokenCache.rowMatches st prov now) with
    | none => rw [hfind] at hc; simp at hc
    | some r =>
        rw [hfind] at hc
        simp only [Option.some.injEq] at hc
        have hmem := List.mem_of_find?_eq_some hfind
        have hp := List.find?_some hfind
        simp only [TokenCache.rowMatches, Bool.and_eq_true, beq_iff_eq,
          decide_eq_true_eq] at hp
        exact ⟨r, hmem, hp.1.1, hp.1.2, hp.2, hc.symm⟩
  · intro hall
    unfold TokenCache.get
    have hnone : db.find? (TokenCache.rowMatches st prov now) = none := by
      rw [List.find?_eq_none]
      intro r hr hm
      simp only [TokenCache.rowMatches, Bool.and_eq_true, beq_iff_eq,
        decide_eq_true_eq] at hm
      have := hall r hr hm.1.1 hm.1.2
      omega
    rw [hnone]

/-- Witness for C2 at a concrete input: an expired row is not returned. -/
theorem c2_no_stale_reads_witness :
    (TokenCache.get [⟨"s", "t", none, "u", "p", 5, 0, 0⟩] "s" "p" 10).1 =
      none :=
  (c2_no_stale_reads [⟨"s", "t", none, "u", "p", 5, 0, 0⟩] "s" "p" 10).2
    (by decide)

/-- Claim C4 (counterexample). The claim asserts that `sweep_expired` deletes
every record with `expires_at ≤ now`, so that `stats().expired = 0` right
after a sweep.  The code deletes only `expires_at < now` (strict), so a
record whose `expires_at` equals the sweep time survives the sweep yet is
counted as expired by `stats`: at the concrete input below the sweep deletes
nothing and `stats().expired = 1` immediately afterwards. -/
theorem c4_counterexample :
    TokenCache.cleanup_expired [⟨"s", "t", none, "u", "p", 100, 0, 0⟩] 100 =
      ([⟨"s", "t", none, "u", "p", 100, 0, 0⟩], 0) ∧
    (TokenCache.get_stats
        (TokenCache.cleanup_expired [⟨"s", "t", none, "u", "p", 100, 0, 0⟩]
          100).1 100).expired_tokens = 1 := by
  constructor
  · rfl
  · rfl

/-- Claim C4 (amended). `sweep_expired` deletes exactly the records with
`expires_at < now` (strictly earlier than the sweep time) and returns the
number removed; immediately after a sweep at time `now` (no records expiring
during the sweep itself), `stats().expired` equals the number of records
whose `expires_at` is exactly `now` — in particular it is `0` whenever no
record's expiry coincides with the sweep instant. -/
theorem c4_sweep_strict (db : List Row) (now : Int) :
    (TokenCache.cleanup_expired db now).1 =
      db.filter (fun r => decide (now ≤ r.expires_at)) ∧
    (TokenCache.cleanup_expired db now).2 +
        (TokenCache.cleanup_expired db now).1.length = db.length ∧
    (TokenCache.get_stats (TokenCache.cleanup_expired db now).1
        now).expired_tokens =
      (db.filter fun r => decide (r.expires_at = now)).length := by
  refine ⟨?_, ?_, ?_⟩
  · unfold TokenCache.cleanup_expired
    refine List.filter_congr fun r _ => ?_
    by_cases h : r.expires_at < now
    · simp [h, not_le.mpr h]
    · simp [h, not_lt.mp h]
  · unfold TokenCache.cleanup_expired
    simpa using
      (List.length_eq_length_filter_add
        (fun r : Row => decide (r.expires_at < now))).symm
  · have hstats :
        (TokenCache.get_stats (TokenCache.cleanup_expired db now).1
            now).expired_tokens =
          ((db.filter fun r => !decide (r.expires_at < now)).filter
              fun r => decide (r.expires_at ≤ now)).length := rfl
    rw [hstats, List.filter_filter]
    congr 1
    refine List.filter_congr fun r _ => ?_
    by_cases h : r.expires_at = now
    · simp [h]
    · by_cases h2 : r.expires_at < now
      · simp [h, h2, le_of_lt h2]
      · have h3 : ¬ r.expires_at ≤ now := by omega
        simp [h, h3]

/-- Claim C3: cache-first resolution.  (1) If the store holds a valid record
for `(session_handle, provider)` (unexpired, and with the non-empty access
token the store invariant guarantees for persisted records), `resolve`
returns the cached access token with zero broker invocations.  (2) On a
cache miss the broker is invoked exactly once; when it answers 200 with an
access token and TTL, the fetched record is stored under the key with
`expires_at = now + ttl`, the fetched token is returned, and a subsequent
`resolve` for the same key before expiry returns that token with zero
broker invocations, whatever the broker would do then. -/
theorem c3_cache_first (db : List Row) (s p : String) (broker : BrokerOutcome)
    (jd : String → JwtParse) (now : Int) :
    (∀ c, (TokenCache.get db s p now).1 = some c → c.access_token ≠ "" →
        get_trustyvault_token db s p broker jd now =
          ⟨.ok (.str c.access_token), (TokenCache.get db s p now).2, 0⟩) ∧
    ((TokenCache.get db s p now).1 = none →
      (get_trustyvault_token db s p broker jd now).brokerCalls = 1 ∧
      ∀ tok u : String, ∀ e now2 : Int,
        broker = .response 200 (some (.obj [("access_token", .str tok),
          ("expires_in_seconds", .num e)])) →
        tok ≠ "" →
        (fetchedUpn jd (.str tok)).sqliteText = some u →
        now2 < now + e →
          get_trustyvault_token db s p broker jd now =
            ⟨.ok (.str tok), TokenCache.set db s tok none u e p now, 1⟩ ∧
          ∀ broker2 : BrokerOutcome,
            get_trustyvault_token (TokenCache.set db s tok none u e p now)
                s p broker2 jd now2 =
              ⟨.ok (.str tok),
               (TokenCache.get (TokenCache.set db s tok none u e p now)
                  s p now2).2, 0⟩) := by
  constructor
  · intro c hc hne
    exact resolve_hit db s p broker jd now c hc hne
  · intro hmiss
    constructor
    · rw [resolve_miss db s p broker jd now hmiss]
      rfl
    · intro tok u e now2 hbroker htok hupn hlt
      subst hbroker
      have hfr := fetchResponse_good_body db s p tok u e jd now htok hupn
      constructor
      · rw [resolve_miss db s p _ jd now hmiss]
        unfold fetchFromVault
        rw [hfr]
      · intro broker2
        refine resolve_hit _ s p broker2 jd now2 ⟨tok, none, u⟩ ?_ htok
        rw [get_set_same]
        rw [if_pos hlt]

/-- Witness for C3 at a concrete input: a miss fetches once and stores; a
second resolve before expiry answers from the cache with zero calls. -/
theorem c3_cache_first_witness :
    get_trustyvault_token [] "s" "p"
        (.response 200 (some (.obj [("access_token", .str "T"),
          ("expires_in_seconds", .num 50)]))) (fun _ => .decodeError "x") 0 =
      ⟨.ok (.str "T"), TokenCache.set [] "s" "T" none "unknown" 50 "p" 0, 1⟩ ∧
    get_trustyvault_token (TokenCache.set [] "s" "T" none "unknown" 50 "p" 0)
        "s" "p" .timeout (fun _ => .decodeError "x") 10 =
      ⟨.ok (.str "T"),
       (TokenCache.get (TokenCache.set [] "s" "T" none "unknown" 50 "p" 0)
          "s" "p" 10).2, 0⟩ := by
  have h := ((c3_cache_first [] "s" "p"
      (.response 200 (some (.obj [("access_token", .str "T"),
        ("expires_in_seconds", .num 50)]))) (fun _ => .decodeError "x") 0).2
    rfl).2 "T" "unknown" 50 10 rfl (by decide) rfl (by decide)
  exact ⟨h.1, h.2 .timeout⟩

/-- Claim C9: idempotent overwrite.  After two successive `put`s with the same
`(session_handle, provider)`, the store holds exactly one record for that
key, carrying the second call's access token, refresh token and identity,
with `expires_at = now₂ + ttl₂` computed at the second call; rows of other
sessions are untouched. -/
theorem c9_idempotent_overwrite (db : List Row) (s p a1 a2 u1 u2 : String)
    (r1 r2 : Option String) (t1 t2 n1 n2 : Int) :
    ((TokenCache.set (TokenCache.set db s a1 r1 u1 t1 p n1)
          s a2 r2 u2 t2 p n2).filter
        (fun r => r.session_token == s && r.provider == p)) =
      [⟨s, a2, r2, u2, p, n2 + t2, n2, n2⟩] ∧
    ((TokenCache.set (TokenCache.set db s a1 r1 u1 t1 p n1)
          s a2 r2 u2 t2 p n2).filter
        (fun r => r.session_token != s)) =
      db.filter (fun r => r.session_token != s) := by
  rw [set_set_same_session]
  constructor
  · rw [set_eq, List.filter_append, List.filter_filter]
    have h0 : db.filter
        (fun a => (a.session_token == s && a.provider == p) &&
          (a.session_token != s)) = [] :=
      List.filter_eq_nil_iff.mpr
        (by intro a _; by_cases h : a.session_token = s <;> simp [h])
    rw [h0]
    simp [List.filter]
  · exact filter_ne_session_set db s a2 r2 u2 t2 p n2

/-- Claim C5 (counterexample). The claim asserts that *every* non-success
broker response yields a typed `TrustyVaultError` and never a raw transport
or parsing exception.  On the code, a non-success response whose body is not
valid JSON makes `response.json()` raise `json.JSONDecodeError`, which no
`except` clause catches: at the concrete input (HTTP 401, unparseable body)
the call propagates the raw parsing exception instead of a typed error. -/
theorem c5_counterexample :
    get_trustyvault_token [] "s" "p" (.response 401 none)
        (fun _ => .decodeError "x") 0 =
      ⟨.raw "json.JSONDecodeError", [], 1⟩ := rfl

/-- Claim C5 (amended). For every non-success broker response whose body
parses as a JSON object with an object-valued (or absent) `detail`, the
fetch raises `TrustyVaultError` carrying `detail.error` (default
`unknown_error`), `detail.message` (default message) and the transport
status code, and writes nothing to the store; in particular HTTP 401 with
body `{"detail": {"error": "unauthorized", "message": "bad api key"}}`
yields code `unauthorized` with that message and status 401. -/
theorem c5_typed_broker_error (db : List Row) (s p : String)
    (jd : String → JwtParse) (now : Int) (status : Nat)
    (kvs dkvs : List (String × Json))
    (hmiss : (TokenCache.get db s p now).1 = none)
    (hst : status ≠ 200)
    (hdetail : jlookup kvs "detail" = some (.obj dkvs)) :
    get_trustyvault_token db s p (.response status (some (.obj kvs))) jd now =
      ⟨.vaultErr ((jlookup dkvs "error").getD (.str "unknown_error"))
        ((jlookup dkvs "message").getD (.str "Unknown error from TrustyVault"))
        status, db, 1⟩ ∧
    get_trustyvault_token db s p
        (.response 401 (some (.obj [("detail", .obj
          [("error", .str "unauthorized"),
           ("message", .str "bad api key")])]))) jd now =
      ⟨.vaultErr (.str "unauthorized") (.str "bad api key") 401, db, 1⟩ := by
  constructor
  · rw [resolve_miss db s p _ jd now hmiss]
    unfold fetchFromVault
    have hfr : fetchResponse db s p (.response status (some (.obj kvs)))
        jd now =
        (.vaultErr ((jlookup dkvs "error").getD (.str "unknown_error"))
          ((jlookup dkvs "message").getD
            (.str "Unknown error from TrustyVault")) status, db) := by
      have hbs : (status != 200) = true := bne_iff_ne.mpr hst
      simp [fetchResponse, hbs, hdetail]
    rw [hfr]
  · rw [resolve_miss db s p _ jd now hmiss]
    unfold fetchFromVault
    have hfr : fetchResponse db s p
        (.response 401 (some (.obj [("detail", .obj
          [("error", .str "unauthorized"),
           ("message", .str "bad api key")])]))) jd now =
        (.vaultErr (.str "unauthorized") (.str "bad api key") 401, db) := rfl
    rw [hfr]

/-- Witness for C5 (amended) at a concrete input: empty cache, HTTP 500 with
an empty `detail` object falls back to the default code and message. -/
theorem c5_typed_broker_error_witness :
    get_trustyvault_token [] "s" "p"
        (.response 500 (some (.obj [("detail", .obj [])])))
        (fun _ => .decodeError "x") 0 =
      ⟨.vaultErr (.str "unknown_error")
        (.str "Unknown error from TrustyVault") 500, [], 1⟩ :=
  (c5_typed_broker_error [] "s" "p" (fun _ => .decodeError "x") 0 500
    [("detail", .obj [])] [] rfl (by decide) rfl).1

/-- Claim C6 (counterexample). The claim asserts that `decode_jwt_upn` returns
the value of the first *present* claim in the order `upn`,
`preferred_username`, `email`, `unique_name`.  The code chains the claims
with Python `or`, which skips present-but-falsy values: with claims
`{"upn": "", "email": "a@b"}` the first present claim is `upn` (value `""`),
yet the code returns the `email` value. -/
theorem c6_counterexample :
    decode_jwt_upn
        (fun _ => .payload [("upn", .str ""), ("email", .str "a@b")]) "t" =
      .ok (.str "a@b") ∧
    Json.str "" ≠ Json.str "a@b" := by
  refine ⟨rfl, ?_⟩
  simp

/-- Claim C6 (amended). `decode_jwt_upn` fails with an extraction error when
the token does not decode; on a decoded payload it returns the value of the
first claim, in the order `upn`, `preferred_username`, `email`,
`unique_name`, that is present **with a truthy (non-empty) value**, and
fails when no claim in the chain is present and truthy; in particular, for
a payload whose claims contain only a non-empty `email`, it returns the
`email` value. -/
theorem c6_claim_precedence (tok : String) (jd : String → JwtParse)
    (cs : List (String × Json)) :
    (∀ m, jd tok = .decodeError m →
        decode_jwt_upn jd tok = .error ("Invalid JWT token: " ++ m)) ∧
    (jd tok = .payload cs →
      decode_jwt_upn jd tok =
        match (truthyClaim cs "upn").or ((truthyClaim cs "preferred_username").or
            ((truthyClaim cs "email").or (truthyClaim cs "unique_name"))) with
        | some v => .ok v
        | none => .error "UPN not found in JWT token claims") ∧
    (∀ e : String, e ≠ "" → jd tok = .payload [("email", .str e)] →
        decode_jwt_upn jd tok = .ok (.str e)) := by
  refine ⟨?_, ?_, ?_⟩
  · intro m hm
    unfold decode_jwt_upn
    rw [hm]
  · intro hp
    unfold decode_jwt_upn
    rw [hp]
    change (match pyOr (jlookup cs "upn")
        (pyOr (jlookup cs "preferred_username")
          (pyOr (jlookup cs "email") (jlookup cs "unique_name"))) with
      | some j => if j.truthy = true then Except.ok j
                  else Except.error "UPN not found in JWT token claims"
      | none => Except.error "UPN not found in JWT token claims") = _
    rw [pyOr_eq_optTruthy_or, pyOr_eq_optTruthy_or, pyOr_eq_optTruthy_or]
    cases hA : truthyClaim cs "upn" with
    | some v =>
        have hA' : optTruthy (jlookup cs "upn") = some v := hA
        simp [hA, hA', Option.or, optTruthy_some hA]
    | none =>
        have hA' : optTruthy (jlookup cs "upn") = none := hA
        rw [hA']
        cases hB : truthyClaim cs "preferred_username" with
        | some v =>
            have hB' : optTruthy (jlookup cs "preferred_username") = some v := hB
            simp [hA, hB, hB', Option.or, optTruthy_some hB]
        | none =>
            have hB' : optTruthy (jlookup cs "preferred_username") = none := hB
            rw [hB']
            cases hC : truthyClaim cs "email" with
            | some v =>
                have hC' : optTruthy (jlookup cs "email") = some v := hC
                simp [hA, hB, hC, hC', Option.or, optTruthy_some hC]
            | none =>
                have hC' : optTruthy (jlookup cs "email") = none := hC
                rw [hC']
                simp only [hA, hB, hC, Option.none_or]
                cases hD : jlookup cs "unique_name" with
                | none =>
                    have hD2 : truthyClaim cs "unique_name" = none := by
                      unfold truthyClaim optTruthy
                      rw [hD]
                    rw [hD2]
                | some v =>
                    have hD' : truthyClaim cs "unique_name" =
                        optTruthy (some v) := by
                      unfold truthyClaim
                      rw [hD]
                    rw [hD']
                    cases hv : v.truthy <;> simp [optTruthy, hv]
  · intro e he hp
    unfold decode_jwt_upn
    rw [hp]
    have he' : (e != "") = true := bne_iff_ne.mpr he
    simp [jlookup, pyOr, Json.truthy, he']

/-- Witness for C6 (amended) at a concrete input: an `email`-only payload
yields the email value. -/
theorem c6_claim_precedence_witness :
    decode_jwt_upn (fun _ => .payload [("email", .str "a@b")]) "t" =
      .ok (.str "a@b") :=
  (c6_claim_precedence "t" (fun _ => .payload [("email", .str "a@b")])
      [("email", .str "a@b")]).2.2 "a@b" (by decide) rfl

/-- Claim C7: identity-extraction failure is never fatal.  On a cache miss
where the broker answers 200 with a non-empty token but `decode_jwt_upn`
raises on that token, `resolve` still returns the fetched token without
raising, and the record is persisted with the sentinel identity
`"unknown"`. -/
theorem c7_identity_failure_tolerated (db : List Row) (s p tok msg : String)
    (e : Int) (jd : String → JwtParse) (now : Int)
    (hmiss : (TokenCache.get db s p now).1 = none)
    (htok : tok ≠ "")
    (hfail : decode_jwt_upn jd tok = .error msg) :
    get_trustyvault_token db s p
        (.response 200 (some (.obj [("access_token", .str tok),
          ("expires_in_seconds", .num e)]))) jd now =
      ⟨.ok (.str tok), TokenCache.set db s tok none "unknown" e p now, 1⟩ := by
  have hupn : (fetchedUpn jd (.str tok)).sqliteText = some "unknown" := by
    show (match decode_jwt_upn jd tok with
      | Except.ok u => u
      | Except.error _ => Json.str "unknown").sqliteText = some "unknown"
    rw [hfail]
    rfl
  rw [resolve_miss db s p _ jd now hmiss]
  unfold fetchFromVault
  rw [fetchResponse_good_body db s p tok "unknown" e jd now htok hupn]

/-- Witness for C7 at a concrete input: an unparsable token is returned and
cached under the sentinel identity. -/
theorem c7_identity_failure_tolerated_witness :
    get_trustyvault_token [] "s" "p"
        (.response 200 (some (.obj [("access_token", .str "T"),
          ("expires_in_seconds", .num 60)]))) (fun _ => .decodeError "bad") 0 =
      ⟨.ok (.str "T"), TokenCache.set [] "s" "T" none "unknown" 60 "p" 0, 1⟩ :=
  c7_identity_failure_tolerated [] "s" "p" "T" "Invalid JWT token: bad" 60
    (fun _ => .decodeError "bad") 0 rfl (by decide) rfl

/-- Claim C8: a success response without a (truthy) access token raises
`TrustyVaultError` with code `INVALID_RESPONSE` and status 500, writes no
record to the store (the table is unchanged), and performs exactly one
broker call — no retry by this component. -/
theorem c8_invalid_response (db : List Row) (s p : String)
    (kvs : List (String × Json)) (jd : String → JwtParse) (now : Int)
    (hmiss : (TokenCache.get db s p now).1 = none)
    (htok : (bodyAccessToken kvs).truthy = false) :
    get_trustyvault_token db s p (.response 200 (some (.obj kvs))) jd now =
      ⟨.vaultErr (.str "INVALID_RESPONSE")
        (.str "TrustyVault returned no access_token") 500, db, 1⟩ := by
  rw [resolve_miss db s p _ jd now hmiss]
  unfold fetchFromVault
  have hfr : fetchResponse db s p (.response 200 (some (.obj kvs))) jd now =
      (.vaultErr (.str "INVALID_RESPONSE")
        (.str "TrustyVault returned no access_token") 500, db) := by
    simp [fetchResponse, htok]
  rw [hfr]

/-- Witness for C8 at a concrete input: a 200 body with an empty
`access_token` is rejected as `INVALID_RESPONSE` and nothing is stored. -/
theorem c8_invalid_response_witness :
    get_trustyvault_token [] "s" "p"
        (.response 200 (some (.obj [("access_token", .str "")])))
        (fun _ => .decodeError "x") 0 =
      ⟨.vaultErr (.str "INVALID_RESPONSE")
        (.str "TrustyVault returned no access_token") 500, [], 1⟩ :=
  c8_invalid_response [] "s" "p" [("access_token", .str "")]
    (fun _ => .decodeError "x") 0 rfl rfl

/-- Claim C10: a cached record whose `access_token` is empty is treated as a
cache miss — `resolve` proceeds to the fetch path (one broker call) and any
token it returns passed the truthiness guard, so the empty cached value is
never what comes back. -/
theorem c10_empty_cached_token_is_miss (db : List Row) (s p : String)
    (broker : BrokerOutcome) (jd : String → JwtParse) (now : Int)
    (c : CachedToken) (h : (TokenCache.get db s p now).1 = some c)
    (he : c.access_token = "") :
    get_trustyvault_token db s p broker jd now =
      fetchFromVault (TokenCache.get db s p now).2 s p broker jd now ∧
    (get_trustyvault_token db s p broker jd now).brokerCalls = 1 ∧
    ∀ j, (get_trustyvault_token db s p broker jd now).result = .ok j →
      j.truthy = true := by
  have hstep : get_trustyvault_token db s p broker jd now =
      fetchFromVault (TokenCache.get db s p now).2 s p broker jd now := by
    rcases hg : TokenCache.get db s p now with ⟨fst, snd⟩
    rw [hg] at h
    simp only at h
    subst h
    unfold get_trustyvault_token
    rw [hg]
    simp [he]
  refine ⟨hstep, ?_, ?_⟩
  · rw [hstep]
    rfl
  · intro j hj
    rw [hstep] at hj
    exact fetchResponse_ok_truthy _ s p broker jd now j hj

/-- Witness for C10 at a concrete input: an unexpired cached record with an
empty token still sends `resolve` to the broker (one call). -/
theorem c10_empty_cached_token_is_miss_witness :
    (get_trustyvault_token [⟨"s", "", none, "u", "p", 100, 0, 0⟩] "s" "p"
        .timeout (fun _ => .decodeError "x") 0).brokerCalls = 1 :=
  (c10_empty_cached_token_is_miss [⟨"s", "", none, "u", "p", 100, 0, 0⟩]
    "s" "p" .timeout (fun _ => .decodeError "x") 0
    ⟨"", none, "u"⟩ rfl rfl).2.1

end MS365
